import Mathlib

/-!
Shallow embedding of `run_analysis.py` (giz_research): a pipeline that
extracts text from PDFs, asks a language model for structured summaries,
builds a pairwise cross-comparison matrix, and writes two CSV tables.

Python strings are embedded as `List Char` (`PyStr`).  The external
collaborators — the PDF library (`pymupdf`), the model endpoint
(`openai.chat.completions.create`), `json.loads` and `unicodedata.normalize`
— are modelled as explicit oracle parameters, so every repository function
becomes a pure Lean function of its oracles.
-/

set_option autoImplicit false

namespace GizResearch

/-- A Python string, embedded as its list of characters. -/
abbrev PyStr := List Char

/-- Coerce a Lean string literal to the embedded representation. -/
def str (s : String) : PyStr := s.data

/-- Python whitespace characters recognised by `str.strip()`. -/
def pyWhitespace : List Char := [' ', '\t', '\n', '\r', '\x0b', '\x0c']

/-- Python `s.lstrip(chars)`: drop leading characters belonging to `chars`. -/
def pyLStrip (chars : List Char) (s : PyStr) : PyStr :=
  s.dropWhile (fun c => c ∈ chars)

/-- Python `s.strip(chars)`: drop leading and trailing characters belonging
to `chars`. -/
def pyStrip (chars : List Char) (s : PyStr) : PyStr :=
  ((s.dropWhile (fun c => c ∈ chars)).reverse.dropWhile (fun c => c ∈ chars)).reverse

/-- Python `s.strip()` with no argument: strip whitespace from both ends. -/
def pyStripWs (s : PyStr) : PyStr := pyStrip pyWhitespace s

/-- Python `s.lower()` (adequate for the ASCII file names used here). -/
def pyLower (s : PyStr) : PyStr := s.map Char.toLower

/-- Python `s.endswith(suffix)`. -/
def pyEndsWith (suffix s : PyStr) : Bool := suffix.isSuffixOf s

/-- One step budget of Python `s.replace(pat, rep)`; the fuel is an upper
bound on the number of characters consumed, so `s.length` suffices. -/
def pyReplaceAux (pat rep : PyStr) : Nat → PyStr → PyStr
  | _, [] => []
  | 0, s => s
  | fuel + 1, c :: rest =>
    if pat ≠ [] ∧ pat.isPrefixOf (c :: rest) then
      rep ++ pyReplaceAux pat rep fuel ((c :: rest).drop pat.length)
    else
      c :: pyReplaceAux pat rep fuel rest

/-- Python `s.replace(pat, rep)`: replace every occurrence of `pat`,
scanning left to right (case-sensitive). -/
def pyReplace (s pat rep : PyStr) : PyStr := pyReplaceAux pat rep s.length s

/-- `os.path.basename`: the part of the path after the last `/`. -/
def pyBasename (s : PyStr) : PyStr :=
  (s.reverse.takeWhile (fun c => c ≠ '/')).reverse

/-- `os.path.join folder name` for a folder with no trailing slash. -/
def pyPathJoin (folder name : PyStr) : PyStr := folder ++ '/' :: name

/-- First-occurrence lookup in an association list: Python `d[k]` /
`k in d` on a dict, whose keys are unique. -/
def pyDictGet {β : Type} (d : List (String × β)) (k : String) : Option β :=
  match d with
  | [] => none
  | (k', v) :: rest => if k' = k then some v else pyDictGet rest k

/-- Python `d[k] = v` on a dict: replace the value at `k` in place if the
key is present (keeping its position), otherwise append the pair. -/
def pyDictSet {β : Type} (d : List (String × β)) (k : String) (v : β) :
    List (String × β) :=
  match d with
  | [] => [(k, v)]
  | (k', v') :: rest =>
    if k' = k then (k', v) :: rest else (k', v') :: pyDictSet rest k v

/-- Python `sep.join(parts)`. -/
def pyJoinWith (sep : PyStr) (parts : List PyStr) : PyStr :=
  match parts with
  | [] => []
  | p :: rest => p ++ (rest.map (fun q => sep ++ q)).flatten

/-- Configuration constant `ANALYTICAL_CSV` from the script. -/
def ANALYTICAL_CSV : String := "analytical_papers_summary.csv"

/-- Configuration constant `CROSS_CSV` from the script. -/
def CROSS_CSV : String := "cross_comparison_matrix.csv"

/-- Configuration constant `PAPERS_FOLDER` from the script. -/
def PAPERS_FOLDER : PyStr := str "papers"

/-- Configuration constant `PARSED_TEXT_FOLDER` from the script. -/
def PARSED_TEXT_FOLDER : PyStr := str "parsed_text"

/-! ## `clean_text` (run_analysis.py lines 29-37)

```python
def clean_text(text):
    if not text:
        return text
    text = unicodedata.normalize("NFKC", text)
    text = text.replace("’", "'").replace("‘", "'")
    text = text.replace("“", '"').replace("”", '"')
    return text
```

`unicodedata.normalize("NFKC", ·)` is a stdlib collaborator; it is passed
in as the parameter `nfkc`.  The four chained single-character `replace`
calls act pointwise, i.e. as `List.map quoteRepl` (the four source
characters are distinct and none of them is a replacement target). -/

/-- Pointwise effect of the four quote `replace` calls in `clean_text`. -/
def quoteRepl (c : Char) : Char :=
  if c = '’' then '\'' else
  if c = '‘' then '\'' else
  if c = '“' then '"' else
  if c = '”' then '"' else c

/-- `clean_text`, with the NFKC normaliser passed as an oracle. -/
def clean_text (nfkc : PyStr → PyStr) (text : PyStr) : PyStr :=
  if text = [] then text
  else (nfkc text).map quoteRepl

/-- `clean_text` lifted to `Option` to model Python `None` input: the
`if not text` guard returns `None` unchanged. -/
def clean_textOpt (nfkc : PyStr → PyStr) : Option PyStr → Option PyStr
  | none => none
  | some t => some (clean_text nfkc t)

/-! ## `parse_pdf` (run_analysis.py lines 43-64)

```python
def parse_pdf(pdf_file_path):
    try:
        doc = pymupdf.open(pdf_file_path)
        all_text = ""
        for i in range(doc.page_count):
            page = doc.load_page(i)
            text = page.get_text("text")
            all_text += f"\n--- Page {i + 1} ---\n{text}"
        doc.close()
        txt_filename = os.path.join(PARSED_TEXT_FOLDER,
            os.path.basename(pdf_file_path).replace(".pdf", ".txt"))
        with open(txt_filename, "w", encoding="utf-8") as f:
            f.write(all_text)
        return all_text
    except Exception as e:
        print(f"Error opening PDF ...")
        return ""
```

The `pymupdf` collaborator is modelled by an `Except` value: `Except.ok
pages` means the document opened and every page's text was read
successfully (`pages` lists the per-page extracted text); `Except.error e`
means opening or reading raised.  The side file write is recorded as data
in the result. -/

/-- The f-string page marker `"\n--- Page {i + 1} ---\n"`. -/
def pageMarker (n : Nat) : PyStr :=
  str "\n--- Page " ++ (toString n).data ++ str " ---\n"

/-- The side-file path computed on line 55 of the script. -/
def txtFilename (pdf_file_path : PyStr) : PyStr :=
  pyPathJoin PARSED_TEXT_FOLDER
    (pyReplace (pyBasename pdf_file_path) (str ".pdf") (str ".txt"))

/-- Result of `parse_pdf`: the returned text, the side file written to the
parsed-text folder (path and contents), and whether the error branch
printed a log line. -/
structure ParsePdfResult where
  text : PyStr
  sideFile : Option (PyStr × PyStr)
  errorLogged : Bool
deriving DecidableEq, Repr

/-- `parse_pdf`, with the `pymupdf` outcome passed as `openResult`. -/
def parse_pdf (openResult : Except String (List PyStr))
    (pdf_file_path : PyStr) : ParsePdfResult :=
  match openResult with
  | Except.ok pages =>
    let all_text :=
      pages.enum.foldl (fun acc pt => acc ++ pageMarker (pt.1 + 1) ++ pt.2) []
    { text := all_text
      sideFile := some (txtFilename pdf_file_path, all_text)
      errorLogged := false }
  | Except.error _ => { text := [], sideFile := none, errorLogged := true }

/-! ## `analyze_paper` (run_analysis.py lines 70-126)

The model endpoint and `json.loads` are oracles.  A parsed JSON value for
a summary field is either a string or a list of strings (a list containing
non-strings would make `d.strip("- ")` raise, which the outer
`except Exception` turns into `None`; that path is the `Except.error` /
parse-failure path and needs no separate field shape). -/

/-- A JSON value appearing as a field of the summarizer's response. -/
inductive JField where
  | jstr : PyStr → JField
  | jlist : List PyStr → JField
deriving DecidableEq, Repr

/-- The flat mapping of field name to JSON value parsed from the model's
response (`extracted` in the script); Python dict keys are unique. -/
abbrev PaperRecord := List (String × JField)

/-- Lines 116-117 of the script:

```python
if "other_details" in extracted and isinstance(extracted["other_details"], list):
    extracted["other_details"] = "\n".join([d.strip("- ").strip() for d in extracted["other_details"]])
```
-/
def postProcessOtherDetails (extracted : PaperRecord) : PaperRecord :=
  match pyDictGet extracted "other_details" with
  | some (JField.jlist ds) =>
    pyDictSet extracted "other_details"
      (JField.jstr (pyJoinWith (str "\n")
        (ds.map (fun d => pyStripWs (pyStrip ['-', ' '] d)))))
  | _ => extracted

/-- `analyze_paper`: the chat completion (already a function of the prompt,
hence of the paper text) and `json.loads` are oracles.  `Except.error`
covers the transport/API failure branch; `jsonLoads` returning `none`
covers `json.JSONDecodeError`.  Both are caught and turned into `None`. -/
def analyze_paper (nfkc : PyStr → PyStr) (chatResponse : Except String PyStr)
    (jsonLoads : PyStr → Option PaperRecord) : Option PaperRecord :=
  match chatResponse with
  | Except.error _ => none
  | Except.ok content =>
    let result_text := clean_text nfkc (pyStripWs content)
    match jsonLoads result_text with
    | none => none
    | some extracted => some (postProcessOtherDetails extracted)

/-! ## `generate_cross_comparison_matrix` (run_analysis.py lines 140-179)

The nested loop fills `matrix.iloc[i, j]` for `i, paper_a` and `j, paper_b`
in `enumerate(analyses)`.  The chat completion for a pair is an oracle of
the two records (the prompt embeds `json.dumps` of both).  `cellCalls`
records how many model calls the loop body issues for each cell: one for
every off-diagonal cell (whether it succeeds or raises), zero on the
diagonal. -/

/-- `p["paper_name"]` for a summarized record (present on every record the
driver passes in, since `process_papers` sets it before collecting). -/
def recPaperName (p : PaperRecord) : PyStr :=
  match pyDictGet p "paper_name" with
  | some (JField.jstr s) => s
  | _ => []

/-- The body of the nested comparison loop for indices `i, j`: the cell
text and the number of model calls issued for that cell. -/
def comparisonCell (nfkc : PyStr → PyStr)
    (chatO : PaperRecord → PaperRecord → Except String PyStr)
    (i j : Nat) (paper_a paper_b : PaperRecord) : PyStr × Nat :=
  if i = j then (str "Same paper.", 0)
  else
    match chatO paper_a paper_b with
    | Except.ok content => (clean_text nfkc (pyStripWs content), 1)
    | Except.error _ => (str "Comparison failed.", 1)

/-- The comparison matrix: a `DataFrame` indexed by paper name on both
axes, plus the per-cell model-call counts. -/
structure CrossMatrix where
  rowLabels : List PyStr
  colLabels : List PyStr
  cells : List (List PyStr)
  cellCalls : List (List Nat)
deriving DecidableEq, Repr

/-- `generate_cross_comparison_matrix`, with the model endpoint as an
oracle. -/
def generate_cross_comparison_matrix (nfkc : PyStr → PyStr)
    (chatO : PaperRecord → PaperRecord → Except String PyStr)
    (analyses : List PaperRecord) : CrossMatrix :=
  let paper_names := analyses.map recPaperName
  { rowLabels := paper_names
    colLabels := paper_names
    cells := analyses.enum.map (fun a =>
      analyses.enum.map (fun b => (comparisonCell nfkc chatO a.1 b.1 a.2 b.2).1))
    cellCalls := analyses.enum.map (fun a =>
      analyses.enum.map (fun b => (comparisonCell nfkc chatO a.1 b.1 a.2 b.2).2)) }

/-! ## `save_analytical_csv` (run_analysis.py lines 132-138) and the
pandas collaborator

```python
def save_analytical_csv(analyses):
    df = pd.DataFrame(analyses)
    df.index.name = "Paper"
    df.reset_index(inplace=True)
    df.rename(columns={"index": "paper_name"}, inplace=True)
    df.to_csv(ANALYTICAL_CSV, index=False, encoding="utf-8-sig")
```

pandas semantics modelled: `pd.DataFrame(list_of_dicts)` has a default
`RangeIndex 0..n-1` and one column per key in order of first appearance;
`reset_index` turns the index into a new first column named after
`index.name` (or `"index"` if unnamed); `rename(columns=m)` renames only
columns present in `m`; `to_csv(index=False)` emits the columns as header
and one row per record, missing values blank. -/

/-- A cell of the serialized table: blank (missing value), an integer from
the index, or a field value. -/
inductive CsvCell (β : Type) where
  | blank : CsvCell β
  | idx : Nat → CsvCell β
  | val : β → CsvCell β
deriving DecidableEq, Repr

/-- The pandas DataFrame state used by `save_analytical_csv`. -/
structure DataFrame (β : Type) where
  indexName : Option String
  indexVals : List Nat
  columns : List String
  rows : List (List (CsvCell β))
deriving DecidableEq, Repr

/-- Append the keys of one record to an accumulated column list, keeping
first-appearance order and uniqueness. -/
def insertKeys (acc : List String) (ks : List String) : List String :=
  ks.foldl (fun a k => if a.contains k then a else a ++ [k]) acc

/-- Column set of `pd.DataFrame(records)`: union of the records' keys in
order of first appearance. -/
def unionKeys {β : Type} (records : List (List (String × β))) : List String :=
  records.foldl (fun acc r => insertKeys acc (r.map Prod.fst)) []

/-- `pd.DataFrame(records)` for a list of dicts. -/
def pdDataFrame {β : Type} (records : List (List (String × β))) : DataFrame β :=
  let cols := unionKeys records
  { indexName := none
    indexVals := List.range records.length
    columns := cols
    rows := records.map (fun r => cols.map (fun k =>
      match pyDictGet r k with
      | some v => CsvCell.val v
      | none => CsvCell.blank)) }

/-- `df.index.name = n`. -/
def setIndexName {β : Type} (df : DataFrame β) (n : String) : DataFrame β :=
  { df with indexName := some n }

/-- `df.reset_index(inplace=True)`: the index becomes the first column,
named after `index.name` (default `"index"`), and the index reverts to a
fresh unnamed `RangeIndex`. -/
def reset_index {β : Type} (df : DataFrame β) : DataFrame β :=
  { indexName := none
    indexVals := List.range df.rows.length
    columns := (df.indexName.getD "index") :: df.columns
    rows := (df.indexVals.zip df.rows).map (fun p => CsvCell.idx p.1 :: p.2) }

/-- `df.rename(columns=m, inplace=True)`: columns not mentioned in `m`
are left unchanged. -/
def renameColumns {β : Type} (df : DataFrame β) (m : List (String × String)) :
    DataFrame β :=
  { df with columns := df.columns.map (fun c =>
      match pyDictGet m c with
      | some c2 => c2
      | none => c) }

/-- `df.to_csv(path, index=False)`: header line and data rows. -/
def to_csvNoIndex {β : Type} (df : DataFrame β) :
    List String × List (List (CsvCell β)) :=
  (df.columns, df.rows)

/-- `save_analytical_csv`, returning the header and rows written to
`ANALYTICAL_CSV`. -/
def save_analytical_csv {β : Type} (analyses : List (List (String × β))) :
    List String × List (List (CsvCell β)) :=
  let df := pdDataFrame analyses
  let df := setIndexName df "Paper"
  let df := reset_index df
  let df := renameColumns df [("index", "paper_name")]
  to_csvNoIndex df

/-! ## `process_papers` (run_analysis.py lines 185-210) -/

/-- The driver's file filter: `f.lower().endswith(".pdf")`. -/
def selectsPdf (f : PyStr) : Bool := pyEndsWith (str ".pdf") (pyLower f)

/-- The per-paper collection loop of `process_papers`: extract, skip on
empty text, summarize, skip on `None`, otherwise set `paper_name` and
append. -/
def collectAnalyses (nfkc : PyStr → PyStr)
    (openO : PyStr → Except String (List PyStr))
    (analysisChatO : PyStr → Except String PyStr)
    (jsonLoads : PyStr → Option PaperRecord)
    (pdf_files : List PyStr) : List PaperRecord :=
  pdf_files.foldl (fun acc pdf_path =>
    let paper_name := pyBasename pdf_path
    let res := parse_pdf (openO pdf_path) pdf_path
    if res.text = [] then acc
    else
      match analyze_paper nfkc (analysisChatO res.text) jsonLoads with
      | some analysis =>
        acc ++ [pyDictSet analysis "paper_name" (JField.jstr paper_name)]
      | none => acc) []

/-- Observable outcome of one `process_papers` run: the collected records,
the two tables (present when written), the list of table files written,
and whether the "No papers were successfully analyzed." message was
printed. -/
structure RunResult where
  analyses : List PaperRecord
  analyticalTable : Option (List String × List (List (CsvCell JField)))
  matrix : Option CrossMatrix
  tablesWritten : List String
  reportedNoPapers : Bool

/-- `process_papers`, with every external collaborator passed as an
oracle.  `analysisChatO` is keyed by the extracted text (the summarizer
prompt is a function of it); `cmpChatO` by the two records being
compared. -/
def process_papers (nfkc : PyStr → PyStr)
    (openO : PyStr → Except String (List PyStr))
    (analysisChatO : PyStr → Except String PyStr)
    (jsonLoads : PyStr → Option PaperRecord)
    (cmpChatO : PaperRecord → PaperRecord → Except String PyStr)
    (folder_path : PyStr) (folderListing : List PyStr) : RunResult :=
  let pdf_files :=
    (folderListing.filter (fun f => selectsPdf f)).map
      (fun f => pyPathJoin folder_path f)
  let analyses := collectAnalyses nfkc openO analysisChatO jsonLoads pdf_files
  if analyses.isEmpty then
    { analyses := analyses
      analyticalTable := none
      matrix := none
      tablesWritten := []
      reportedNoPapers := true }
  else
    { analyses := analyses
      analyticalTable := some (save_analytical_csv analyses)
      matrix := some (generate_cross_comparison_matrix nfkc cmpChatO analyses)
      tablesWritten := [ANALYTICAL_CSV, CROSS_CSV]
      reportedNoPapers := false }

/-! ## Definition written from the specification's words (for comparing
against the code's post-processing of `other_details`) -/

/-- Follows the spec's words: "the resulting record's `other_details`
equals the entries joined with newlines with stray leading bullet/dash
characters stripped from each entry" — i.e. only leading bullet, dash and
space characters are removed. -/
def specLeadingBulletStripJoin (entries : List PyStr) : PyStr :=
  pyJoinWith (str "\n") (entries.map (pyLStrip ['•', '-', ' ']))

/-! ## Helper lemmas -/

theorem quoteRepl_idem (c : Char) : quoteRepl (quoteRepl c) = quoteRepl c := by
  unfold quoteRepl
  split_ifs <;> simp_all

theorem map_quoteRepl_idem (s : PyStr) :
    (s.map quoteRepl).map quoteRepl = s.map quoteRepl := by
  rw [List.map_map]
  exact List.map_congr_left (fun c _ => quoteRepl_idem c)

theorem pageConcat_foldl (l : List (Nat × PyStr)) (acc : PyStr) :
    l.foldl (fun acc pt => acc ++ pageMarker (pt.1 + 1) ++ pt.2) acc
      = acc ++ (l.map (fun pt => pageMarker (pt.1 + 1) ++ pt.2)).flatten := by
  induction l generalizing acc with
  | nil => simp
  | cons hd tl ih =>
    rw [List.foldl_cons, List.map_cons, List.flatten_cons, ih]
    simp [List.append_assoc]

theorem pyDictGet_pyDictSet_self {β : Type} (d : List (String × β)) (k : String)
    (v : β) : pyDictGet (pyDictSet d k v) k = some v := by
  induction d with
  | nil => simp [pyDictSet, pyDictGet]
  | cons hd tl ih =>
    obtain ⟨k', v'⟩ := hd
    by_cases hk : k' = k
    · subst hk; simp [pyDictSet, pyDictGet]
    · simp [pyDictSet, pyDictGet, hk, ih]

theorem grid_getD {α β : Type} (g : Nat × α → Nat × α → β) (l : List α)
    (i j : Nat) (d : β) (hi : i < l.length) (hj : j < l.length) :
    ((l.enum.map (fun a => l.enum.map (fun b => g a b))).getD i []).getD j d
      = g (i, l.get ⟨i, hi⟩) (j, l.get ⟨j, hj⟩) := by
  have houter : (l.enum.map (fun a => l.enum.map (fun b => g a b))).getD i []
      = l.enum.map (fun b => g (i, l.get ⟨i, hi⟩) b) := by
    rw [List.getD_eq_getElem?_getD, List.getElem?_map, List.getElem?_enum,
      List.getElem?_eq_getElem hi]
    simp only [Option.map_some', Option.getD_some, List.get_eq_getElem]
  rw [houter, List.getD_eq_getElem?_getD, List.getElem?_map, List.getElem?_enum,
    List.getElem?_eq_getElem hj]
  simp only [Option.map_some', Option.getD_some, List.get_eq_getElem]

theorem process_papers_analyses_eq (nfkc : PyStr → PyStr)
    (openO : PyStr → Except String (List PyStr))
    (analysisChatO : PyStr → Except String PyStr)
    (jsonLoads : PyStr → Option PaperRecord)
    (cmpChatO : PaperRecord → PaperRecord → Except String PyStr)
    (folder_path : PyStr) (folderListing : List PyStr) :
    (process_papers nfkc openO analysisChatO jsonLoads cmpChatO folder_path
        folderListing).analyses
      = collectAnalyses nfkc openO analysisChatO jsonLoads
          ((folderListing.filter (fun f => selectsPdf f)).map
            (fun f => pyPathJoin folder_path f)) := by
  by_cases h : (collectAnalyses nfkc openO analysisChatO jsonLoads
      ((folderListing.filter (fun f => selectsPdf f)).map
        (fun f => pyPathJoin folder_path f))).isEmpty = true <;>
    simp [process_papers, h]

/-! ## Claim theorems -/

/-- C3: `clean_text` is idempotent — `clean_text (clean_text s) = clean_text s`
for every string `s` — and returns empty and `None` input unchanged.  The
stdlib collaborator `unicodedata.normalize("NFKC", ·)` enters as the
parameter `nfkc`, constrained by the Unicode fact that replacing the four
typographic quotes by their ASCII equivalents in an NFKC-normalized string
leaves it NFKC-normalized (ASCII quotes neither decompose nor compose). -/
theorem clean_text_idempotent (nfkc : PyStr → PyStr)
    (hstable : ∀ s, nfkc ((nfkc s).map quoteRepl) = (nfkc s).map quoteRepl) :
    (∀ s, clean_text nfkc (clean_text nfkc s) = clean_text nfkc s) ∧
    clean_text nfkc [] = [] ∧ clean_textOpt nfkc none = none := by
  refine ⟨fun s => ?_, rfl, rfl⟩
  by_cases hs : s = []
  · subst hs; rfl
  · have h1 : clean_text nfkc s = (nfkc s).map quoteRepl := by
      simp only [clean_text, if_neg hs]
    rw [h1]
    by_cases ht : (nfkc s).map quoteRepl = []
    · rw [ht]; rfl
    · simp only [clean_text, if_neg ht, hstable s, map_quoteRepl_idem]

/-- Witness for C3: the theorem applied at `nfkc := id` (which satisfies
the stability hypothesis definitionally) and a concrete string containing
typographic quotes. -/
theorem clean_text_idempotent_check :
    clean_text id (clean_text id (str "a’b“c")) = clean_text id (str "a’b“c") :=
  (clean_text_idempotent id (fun _ => rfl)).1 (str "a’b“c")

/-- C2: for a PDF whose pages carry the texts `pages`, the string returned
by `parse_pdf` is the concatenation, in page order, of the page marker
`"\n--- Page <n> ---\n"` followed by that page's text, with the markers
numbered in ascending order `1..k`. -/
theorem parse_pdf_text_page_concatenation (pages : List PyStr) (path : PyStr) :
    (parse_pdf (Except.ok pages) path).text
      = (pages.enum.map (fun pt => pageMarker (pt.1 + 1) ++ pt.2)).flatten ∧
    pages.enum.map (fun pt => pt.1 + 1) = List.range' 1 pages.length := by
  constructor
  · show pages.enum.foldl (fun acc pt => acc ++ pageMarker (pt.1 + 1) ++ pt.2) []
        = _
    rw [pageConcat_foldl]
    rfl
  · calc pages.enum.map (fun pt => pt.1 + 1)
        = (pages.enum.map Prod.fst).map (fun n => n + 1) := by
          rw [List.map_map]; rfl
      _ = (List.range pages.length).map (fun n => n + 1) := by
          rw [List.enum_map_fst]
      _ = List.range' 1 pages.length := by
          rw [List.range'_eq_map_range]
          exact List.map_congr_left (fun a _ => Nat.add_comm a 1)

/-- C7: any open/read error in `parse_pdf` is caught, logged and turned
into an empty-string return with no record produced — the caller skips the
file and the remaining files are processed unchanged — and the return
value of a zero-page document is the same empty string as that of an open
failure. -/
theorem parse_pdf_error_caught_and_skipped (nfkc : PyStr → PyStr)
    (openO : PyStr → Except String (List PyStr))
    (analysisChatO : PyStr → Except String PyStr)
    (jsonLoads : PyStr → Option PaperRecord)
    (cmpChatO : PaperRecord → PaperRecord → Except String PyStr)
    (folder f p : PyStr) (pre post : List PyStr) (e : String) :
    parse_pdf (Except.error e) p
        = { text := [], sideFile := none, errorLogged := true } ∧
    (parse_pdf (Except.ok []) p).text = (parse_pdf (Except.error e) p).text ∧
    ((parse_pdf (openO (pyPathJoin folder f)) (pyPathJoin folder f)).text = [] →
      (process_papers nfkc openO analysisChatO jsonLoads cmpChatO folder
          (pre ++ f :: post)).analyses
        = (process_papers nfkc openO analysisChatO jsonLoads cmpChatO folder
          (pre ++ post)).analyses) := by
  refine ⟨rfl, rfl, fun htext => ?_⟩
  rw [process_papers_analyses_eq, process_papers_analyses_eq]
  unfold collectAnalyses
  have hfp : pre ++ f :: post = pre ++ [f] ++ post := by simp
  rw [hfp]
  rw [List.filter_append, List.filter_append, List.map_append, List.map_append,
    List.foldl_append, List.foldl_append]
  rw [List.filter_append, List.map_append, List.foldl_append]
  congr 1
  by_cases hsel : selectsPdf f
  · have hf1 : List.filter (fun g => selectsPdf g) [f] = [f] := by
      simp [List.filter_cons, hsel]
    rw [hf1]
    simp only [List.map_cons, List.map_nil, List.foldl_cons, List.foldl_nil]
    simp [htext]
  · have hf0 : List.filter (fun g => selectsPdf g) [f] = [] := by
      simp [List.filter_cons, hsel]
    rw [hf0]
    simp

/-- Witness for C7: a one-file listing whose PDF fails to open yields the
same collected records as the empty listing. -/
theorem parse_pdf_error_caught_and_skipped_check :
    (process_papers id (fun _ => Except.error "corrupt")
        (fun _ => Except.error "api") (fun _ => none)
        (fun _ _ => Except.error "api") (str "papers")
        ([] ++ str "bad.pdf" :: [])).analyses
      = (process_papers id (fun _ => Except.error "corrupt")
        (fun _ => Except.error "api") (fun _ => none)
        (fun _ _ => Except.error "api") (str "papers") ([] ++ [])).analyses :=
  (parse_pdf_error_caught_and_skipped id (fun _ => Except.error "corrupt")
      (fun _ => Except.error "api") (fun _ => none)
      (fun _ _ => Except.error "api") (str "papers") (str "bad.pdf") (str "x")
      [] [] "corrupt").2.2 rfl

/-- C10: `parse_pdf` writes the side text file exactly on the success
path: for any successfully opened document the side file carries the
returned text (a zero-page document yields an empty side file together
with the empty-string return), while an open/read failure writes no side
file — so the filesystem effect distinguishes the two cases the return
value conflates. -/
theorem parse_pdf_sideFile_frame (p : PyStr) (e : String)
    (pages : List PyStr) :
    (parse_pdf (Except.ok pages) p).sideFile
        = some (txtFilename p, (parse_pdf (Except.ok pages) p).text) ∧
    (parse_pdf (Except.ok []) p).sideFile = some (txtFilename p, []) ∧
    (parse_pdf (Except.ok []) p).text = [] ∧
    (parse_pdf (Except.error e) p).sideFile = none :=
  ⟨rfl, rfl, rfl, rfl⟩

/-- C1: for `n` summarized records the comparison matrix is `n × n`,
labelled by `paper_name` on both axes; every diagonal cell is the literal
"Same paper." and no model call is attributed to a diagonal cell. -/
theorem cross_matrix_dimensions_and_diagonal (nfkc : PyStr → PyStr)
    (chatO : PaperRecord → PaperRecord → Except String PyStr)
    (analyses : List PaperRecord) :
    (generate_cross_comparison_matrix nfkc chatO analyses).rowLabels
        = analyses.map recPaperName ∧
    (generate_cross_comparison_matrix nfkc chatO analyses).colLabels
        = analyses.map recPaperName ∧
    (generate_cross_comparison_matrix nfkc chatO analyses).cells.length
        = analyses.length ∧
    (∀ row ∈ (generate_cross_comparison_matrix nfkc chatO analyses).cells,
        row.length = analyses.length) ∧
    (∀ calls ∈ (generate_cross_comparison_matrix nfkc chatO analyses).cellCalls,
        calls.length = analyses.length) ∧
    (∀ i, i < analyses.length →
      ((generate_cross_comparison_matrix nfkc chatO analyses).cells.getD
          i []).getD i [] = str "Same paper." ∧
      ((generate_cross_comparison_matrix nfkc chatO analyses).cellCalls.getD
          i []).getD i 1 = 0) := by
  refine ⟨rfl, rfl, ?_, ?_, ?_, fun i hi => ⟨?_, ?_⟩⟩
  · simp [generate_cross_comparison_matrix, List.enum_length]
  · intro row hrow
    simp only [generate_cross_comparison_matrix] at hrow
    obtain ⟨a, -, rfl⟩ := List.mem_map.1 hrow
    simp [List.enum_length]
  · intro calls hcalls
    simp only [generate_cross_comparison_matrix] at hcalls
    obtain ⟨a, -, rfl⟩ := List.mem_map.1 hcalls
    simp [List.enum_length]
  · show ((analyses.enum.map (fun a => analyses.enum.map (fun b =>
        (comparisonCell nfkc chatO a.1 b.1 a.2 b.2).1))).getD i []).getD i []
        = str "Same paper."
    rw [grid_getD (fun a b => (comparisonCell nfkc chatO a.1 b.1 a.2 b.2).1)
      analyses i i [] hi hi]
    simp [comparisonCell]
  · show ((analyses.enum.map (fun a => analyses.enum.map (fun b =>
        (comparisonCell nfkc chatO a.1 b.1 a.2 b.2).2))).getD i []).getD i 1
        = 0
    rw [grid_getD (fun a b => (comparisonCell nfkc chatO a.1 b.1 a.2 b.2).2)
      analyses i i 1 hi hi]
    simp [comparisonCell]

/-- Witness for C1: the diagonal cell of a concrete one-record matrix. -/
theorem cross_matrix_dimensions_and_diagonal_check :
    ((generate_cross_comparison_matrix id (fun _ _ => Except.error "x")
        [[("paper_name", JField.jstr (str "a.pdf"))]]).cells.getD 0 []).getD
        0 [] = str "Same paper." :=
  ((cross_matrix_dimensions_and_diagonal id (fun _ _ => Except.error "x")
      [[("paper_name", JField.jstr (str "a.pdf"))]]).2.2.2.2.2 0
      (by decide)).1

/-- C5: when the model call for an off-diagonal ordered pair raises, that
cell is the fixed sentinel "Comparison failed." and the matrix is still
completely filled — every row of the `n × n` grid is present, so one
failing pair never aborts the remaining pairs. -/
theorem comparison_failure_sentinel (nfkc : PyStr → PyStr)
    (chatO : PaperRecord → PaperRecord → Except String PyStr)
    (analyses : List PaperRecord) (i j : Nat) (e : String)
    (hi : i < analyses.length) (hj : j < analyses.length) (hij : i ≠ j)
    (herr : chatO (analyses.get ⟨i, hi⟩) (analyses.get ⟨j, hj⟩)
        = Except.error e) :
    ((generate_cross_comparison_matrix nfkc chatO analyses).cells.getD
        i []).getD j [] = str "Comparison failed." ∧
    (generate_cross_comparison_matrix nfkc chatO analyses).cells.length
        = analyses.length ∧
    ∀ row ∈ (generate_cross_comparison_matrix nfkc chatO analyses).cells,
        row.length = analyses.length := by
  refine ⟨?_, ?_, ?_⟩
  · show ((analyses.enum.map (fun a => analyses.enum.map (fun b =>
        (comparisonCell nfkc chatO a.1 b.1 a.2 b.2).1))).getD i []).getD j []
        = str "Comparison failed."
    rw [grid_getD (fun a b => (comparisonCell nfkc chatO a.1 b.1 a.2 b.2).1)
      analyses i j [] hi hj]
    unfold comparisonCell
    rw [if_neg hij, herr]
  · simp [generate_cross_comparison_matrix, List.enum_length]
  · intro row hrow
    simp only [generate_cross_comparison_matrix] at hrow
    obtain ⟨a, -, rfl⟩ := List.mem_map.1 hrow
    simp [List.enum_length]

/-- Witness for C5: a two-record matrix whose model oracle always raises
still has the failure sentinel in cell (0, 1). -/
theorem comparison_failure_sentinel_check :
    ((generate_cross_comparison_matrix id (fun _ _ => Except.error "boom")
        [[("paper_name", JField.jstr (str "a.pdf"))],
         [("paper_name", JField.jstr (str "b.pdf"))]]).cells.getD 0 []).getD
        1 [] = str "Comparison failed." :=
  (comparison_failure_sentinel id (fun _ _ => Except.error "boom")
      [[("paper_name", JField.jstr (str "a.pdf"))],
       [("paper_name", JField.jstr (str "b.pdf"))]] 0 1 "boom"
      (by decide) (by decide) (by decide) rfl).1

/-- C6: when zero papers yield a successful summary, `process_papers`
writes neither table and reports a message; in every other case it writes
both the analytical table and the comparison matrix — the all-failed case
is the only condition that halts output production. -/
theorem process_papers_output_gating (nfkc : PyStr → PyStr)
    (openO : PyStr → Except String (List PyStr))
    (analysisChatO : PyStr → Except String PyStr)
    (jsonLoads : PyStr → Option PaperRecord)
    (cmpChatO : PaperRecord → PaperRecord → Except String PyStr)
    (folder_path : PyStr) (folderListing : List PyStr) :
    ((process_papers nfkc openO analysisChatO jsonLoads cmpChatO folder_path
        folderListing).analyses = [] →
      (process_papers nfkc openO analysisChatO jsonLoads cmpChatO folder_path
          folderListing).tablesWritten = [] ∧
      (process_papers nfkc openO analysisChatO jsonLoads cmpChatO folder_path
          folderListing).analyticalTable = none ∧
      (process_papers nfkc openO analysisChatO jsonLoads cmpChatO folder_path
          folderListing).matrix = none ∧
      (process_papers nfkc openO analysisChatO jsonLoads cmpChatO folder_path
          folderListing).reportedNoPapers = true) ∧
    ((process_papers nfkc openO analysisChatO jsonLoads cmpChatO folder_path
        folderListing).analyses ≠ [] →
      (process_papers nfkc openO analysisChatO jsonLoads cmpChatO folder_path
          folderListing).tablesWritten = [ANALYTICAL_CSV, CROSS_CSV] ∧
      (process_papers nfkc openO analysisChatO jsonLoads cmpChatO folder_path
          folderListing).analyticalTable
        = some (save_analytical_csv
            (process_papers nfkc openO analysisChatO jsonLoads cmpChatO
              folder_path folderListing).analyses) ∧
      (process_papers nfkc openO analysisChatO jsonLoads cmpChatO folder_path
          folderListing).matrix
        = some (generate_cross_comparison_matrix nfkc cmpChatO
            (process_papers nfkc openO analysisChatO jsonLoads cmpChatO
              folder_path folderListing).analyses) ∧
      (process_papers nfkc openO analysisChatO jsonLoads cmpChatO folder_path
          folderListing).reportedNoPapers = false) := by
  by_cases h : (collectAnalyses nfkc openO analysisChatO jsonLoads
      ((folderListing.filter (fun f => selectsPdf f)).map
        (fun f => pyPathJoin folder_path f))).isEmpty = true
  · constructor
    · intro _
      refine ⟨?_, ?_, ?_, ?_⟩ <;> simp [process_papers, h]
    · intro hne
      exact absurd (by rw [process_papers_analyses_eq]
                       exact List.isEmpty_iff.1 h) hne
  · constructor
    · intro heq
      rw [process_papers_analyses_eq] at heq
      exact absurd (by rw [heq]; rfl) h
    · intro _
      refine ⟨?_, ?_, ?_, ?_⟩ <;> simp [process_papers, h]

/-- Witness for C6, all-failed side: with an oracle that fails to open the
only PDF, no table is written and the message is reported. -/
theorem process_papers_output_gating_check :
    (process_papers id (fun _ => Except.error "corrupt")
        (fun _ => Except.error "api") (fun _ => none)
        (fun _ _ => Except.error "api") (str "papers")
        [str "a.pdf"]).tablesWritten = [] :=
  ((process_papers_output_gating id (fun _ => Except.error "corrupt")
      (fun _ => Except.error "api") (fun _ => none)
      (fun _ _ => Except.error "api") (str "papers") [str "a.pdf"]).1 rfl).1

/-- C4, counterexample: the claim says post-processing strips only stray
leading bullet/dash characters from each sequence entry, but the code's
`d.strip("- ").strip()` also strips from the right: on the entry
`"First. -"` the code yields `"First."`, while a leading-only strip (with
any of bullet, dash, space as strippable characters) leaves `"First. -"`
unchanged. -/
theorem other_details_not_leading_strip_only :
    postProcessOtherDetails [("other_details", JField.jlist [str "First. -"])]
        = [("other_details", JField.jstr (str "First."))] ∧
    specLeadingBulletStripJoin [str "First. -"] = str "First. -" ∧
    (str "First." : PyStr) ≠ str "First. -" := by
  exact ⟨by decide, by decide, by decide⟩

/-- C4, amended: whenever the parsed response's `other_details` is a
sequence, the resulting field is the entries joined with newlines, each
entry stripped of leading **and trailing** dash/space characters and then
of surrounding whitespace (the bullet character `•` is not stripped); the
sequence `["- First.", "Second."]` yields exactly `"First.\nSecond."`, and
a single-string `other_details` (or an absent one) leaves the record
unchanged. -/
theorem other_details_postprocessing (extracted : PaperRecord)
    (entries : List PyStr) (s : PyStr) :
    (pyDictGet extracted "other_details" = some (JField.jlist entries) →
      pyDictGet (postProcessOtherDetails extracted) "other_details"
        = some (JField.jstr (pyJoinWith (str "\n")
            (entries.map (fun d => pyStripWs (pyStrip ['-', ' '] d)))))) ∧
    (pyDictGet extracted "other_details" = some (JField.jstr s) →
      postProcessOtherDetails extracted = extracted) ∧
    (pyDictGet extracted "other_details" = none →
      postProcessOtherDetails extracted = extracted) ∧
    postProcessOtherDetails
        [("other_details", JField.jlist [str "- First.", str "Second."])]
      = [("other_details", JField.jstr (str "First.\nSecond."))] ∧
    postProcessOtherDetails
        [("title", JField.jstr (str "X")), ("pilot", JField.jstr (str "N/A")),
         ("other_details", JField.jstr (str "• First.\n• Second."))]
      = [("title", JField.jstr (str "X")), ("pilot", JField.jstr (str "N/A")),
         ("other_details", JField.jstr (str "• First.\n• Second."))] := by
  refine ⟨fun h => ?_, fun h => ?_, fun h => ?_, by decide, by decide⟩
  · unfold postProcessOtherDetails
    rw [h]
    exact pyDictGet_pyDictSet_self extracted "other_details" _
  · unfold postProcessOtherDetails
    rw [h]
  · unfold postProcessOtherDetails
    rw [h]

/-- Witness for C4's amended theorem: the general sequence rule applied at
the concrete two-entry input. -/
theorem other_details_postprocessing_check :
    pyDictGet (postProcessOtherDetails
        [("other_details", JField.jlist [str "- First.", str "Second."])])
        "other_details"
      = some (JField.jstr (pyJoinWith (str "\n")
          ([str "- First.", str "Second."].map
            (fun d => pyStripWs (pyStrip ['-', ' '] d))))) :=
  (other_details_postprocessing
      [("other_details", JField.jlist [str "- First.", str "Second."])]
      [str "- First.", str "Second."] []).1 rfl

/-- C8: on a concrete one-record input, the table written by
`save_analytical_csv` has the header `["Paper", "title", "paper_name"]` —
the first column comes from the reset index (named "Paper" and holding the
row numbers), not from any record field, because
`rename(columns={"index": "paper_name"})` targets a column that does not
exist.  This contradicts the claim that the column set is exactly the
union of record fields plus `paper_name`. -/
theorem save_analytical_csv_extra_index_column :
    save_analytical_csv [[("title", str "X"), ("paper_name", str "a.pdf")]]
      = (["Paper", "title", "paper_name"],
         [[CsvCell.idx 0, CsvCell.val (str "X"), CsvCell.val (str "a.pdf")]]) ∧
    "Paper" ∉ unionKeys [[("title", str "X"), ("paper_name", str "a.pdf")]] := by
  exact ⟨by decide, by decide⟩

/-- C9: the driver's case-insensitive filter selects `"PAPER.PDF"`, but
the side file name computed by `parse_pdf` uses the case-sensitive
`replace(".pdf", ".txt")`, so the extension of an uppercase-named PDF is
not replaced: the side file is `"parsed_text/PAPER.PDF"`, not the claimed
`"parsed_text/PAPER.txt"` (lowercase names are renamed as claimed). -/
theorem uppercase_pdf_extension_not_replaced :
    selectsPdf (str "PAPER.PDF") = true ∧
    (parse_pdf (Except.ok [str "hello"])
        (pyPathJoin PAPERS_FOLDER (str "PAPER.PDF"))).sideFile
      = some (str "parsed_text/PAPER.PDF", str "\n--- Page 1 ---\nhello") ∧
    (str "parsed_text/PAPER.PDF" : PyStr) ≠ str "parsed_text/PAPER.txt" ∧
    txtFilename (pyPathJoin PAPERS_FOLDER (str "paper.pdf"))
      = str "parsed_text/paper.txt" := by
  exact ⟨by decide, by decide, by decide, by decide⟩

end GizResearch

